import Mathlib

/-!
Verification of the ga4gh-sdk CLI (`cli/src/main.rs`): the task state
model, the response formatter, the list-query builder, and the command
dispatcher, embedded shallowly in Lean.
-/

namespace GA4GH

/-- The TES task state enumeration (`ga4gh_sdk::clients::tes::models::TesState`),
as matched exhaustively by `tes_state_to_str` in `cli/src/main.rs` and listed
in the spec's data model. -/
inductive TesState
  | Unknown
  | Queued
  | Initializing
  | Running
  | Paused
  | Complete
  | ExecutorError
  | SystemError
  | Canceled
  | Canceling
  | Preempted
deriving DecidableEq, Repr, Fintype

/-- `tes_state_to_str` from `cli/src/main.rs` lines 78-93: label of an
optional task state. -/
def tes_state_to_str : Option TesState → String
  | some TesState.Unknown => "Unknown"
  | some TesState.Queued => "Queued"
  | some TesState.Initializing => "Initializing"
  | some TesState.Running => "Running"
  | some TesState.Paused => "Paused"
  | some TesState.Complete => "Complete"
  | some TesState.ExecutorError => "Executor Error"
  | some TesState.SystemError => "System Error"
  | some TesState.Canceled => "Canceled"
  | some TesState.Canceling => "Canceling"
  | some TesState.Preempted => "Preempted"
  | none => "None"

/-- The 11 documented state label strings. -/
def stateLabels : List String :=
  ["Unknown", "Queued", "Initializing", "Running", "Paused", "Complete",
   "Executor Error", "System Error", "Canceled", "Canceling", "Preempted"]

/-- One url + local-path pair, as in the task document's inputs/outputs. -/
structure TesIoSpec where
  url : String
  path : String
deriving DecidableEq, Repr

/-- One executor specification of a task document. -/
structure TesExecutor where
  image : String
  command : List String
  stdout : Option String := none
deriving DecidableEq, Repr

/-- The task model (`ga4gh_sdk::clients::tes::models::TesTask`) as used by
`cli/src/main.rs`: backend-assigned optional identifier, optional name,
inputs/outputs, executors, and an optional state. -/
structure TesTask where
  id : Option String := none
  name : Option String := none
  inputs : List TesIoSpec := []
  outputs : List TesIoSpec := []
  executors : List TesExecutor := []
  state : Option TesState := none
deriving DecidableEq, Repr

/-- Rust's left-aligned fixed-minimum-width format field (the width-25 and
width-15 fields of the format strings in `cli/src/main.rs`): pads with
spaces on the right up to the width and never truncates. -/
def leftAligned (w : Nat) (s : String) : String :=
  s ++ String.mk (List.replicate (w - s.length) ' ')

/-- `format_task` from `cli/src/main.rs` lines 95-101: identifier (or
"None") in a width-25 left-aligned field, a space, the state label in a
width-15 left-aligned field, then a newline. -/
def format_task (task : TesTask) : String :=
  leftAligned 25 (task.id.getD "None") ++ " " ++ leftAligned 15 (tes_state_to_str task.state) ++ "\n"

/-- The response of one list call (`TesListTasksResponse`): tasks in
backend order plus an opaque continuation token. -/
structure TesListTasksResponse where
  tasks : List TesTask
  next_page_token : Option String := none
deriving DecidableEq, Repr

/-- The header row built at `cli/src/main.rs` line 105. -/
def listHeaderRow : String :=
  leftAligned 25 "TASK ID" ++ " " ++ leftAligned 15 "State" ++ "\n"

/-- `format_tasks_response` from `cli/src/main.rs` lines 103-111: the header
row, then one `format_task` line appended per task, in response order. -/
def format_tasks_response (response : TesListTasksResponse) : String :=
  response.tasks.foldl (fun table task => table ++ format_task task) listHeaderRow

/-- Modelled from the spec: parsing of the raw state argument into a State
value (done in the source by serde via the SDK's TesState Deserialize, which
is not under src/): the argument must denote one of the eleven defined State
values; anything else fails. -/
def parseStateArg : String → Option TesState
  | "Unknown" => some TesState.Unknown
  | "Queued" => some TesState.Queued
  | "Initializing" => some TesState.Initializing
  | "Running" => some TesState.Running
  | "Paused" => some TesState.Paused
  | "Complete" => some TesState.Complete
  | "ExecutorError" => some TesState.ExecutorError
  | "SystemError" => some TesState.SystemError
  | "Canceled" => some TesState.Canceled
  | "Canceling" => some TesState.Canceling
  | "Preempted" => some TesState.Preempted
  | _ => none

/-- The numeric value of one decimal digit character. -/
def digitVal (c : Char) : Option Nat :=
  if 48 ≤ c.toNat ∧ c.toNat ≤ 57 then some (c.toNat - 48) else none

/-- Accumulate decimal digits left to right; any non-digit fails. -/
def parseNatDigits : List Char → Nat → Option Nat
  | [], acc => some acc
  | c :: cs, acc =>
    match digitVal c with
    | some d => parseNatDigits cs (acc * 10 + d)
    | none => none

/-- Modelled from the spec: parsing of the raw page-size argument, which must
parse into a non-negative integer (the target type of the Rust str parse is
the page-size field of the SDK's ListTasksParams, not under src/): a
non-empty all-digit string denoting the value in decimal. -/
def parsePageSize (s : String) : Option Nat :=
  match s.data with
  | [] => none
  | c :: cs => parseNatDigits (c :: cs) 0

/-- The two local failures of the list-query build: the unparsable state
filter and the unparsable page size (the two expect-aborts at lines 206 and
209 of `cli/src/main.rs`). -/
inductive ListBuildError
  | InvalidFilter
  | InvalidPagination
deriving DecidableEq, Repr

/-- `ListTasksParams` as assembled at `cli/src/main.rs` lines 213-221; the
Rust field name of `namePrefix` is the prefix filter. -/
structure ListTasksParams where
  namePrefix : Option String
  state : Option TesState
  tag_key : Option (List String)
  tag_value : Option (List String)
  page_size : Option Nat
  page_token : Option String
  view : Option String
deriving DecidableEq, Repr

/-- The list pre-step of `cli/src/main.rs` lines 205-221: parse the optional
state and page-size arguments — aborting on the first unparsable one, state
first as in the source — and assemble the `ListTasksParams`, with the tag
fields always left empty (the source binds the tag arguments to unused
variables). -/
def buildListQuery (namePrefix state _tagKey _tagValue pageSize pageToken view : Option String) :
    Except ListBuildError ListTasksParams := do
  let st ← match state with
    | none => pure none
    | some s =>
      match parseStateArg s with
      | some x => pure (some x)
      | none => Except.error ListBuildError.InvalidFilter
  let ps ← match pageSize with
    | none => pure none
    | some s =>
      match parsePageSize s with
      | some n => pure (some n)
      | none => Except.error ListBuildError.InvalidPagination
  pure { namePrefix := namePrefix, state := st,
         tag_key := none, tag_value := none,
         page_size := ps, page_token := pageToken, view := view }

/-- The JSON-level content of a create document: which schema fields the
decoded document provides. The JSON syntax layer itself is external
(serde_json); the dispatcher model receives decoded documents from its
environment. -/
structure TaskDoc where
  name : Option String := none
  inputs : Option (List TesIoSpec) := none
  outputs : Option (List TesIoSpec) := none
  executors : Option (List TesExecutor) := none
deriving DecidableEq, Repr

/-- Modelled from the spec: deserialization of the create document into a
`TesTask` (the serde implementation of the SDK's TesTask model is not under
src/). Per the spec's schema at least one executor is required; name, inputs
and outputs are optional. The argument is `none` for a document that is not
syntactically valid JSON. -/
def parseTesTask : Option TaskDoc → Except String TesTask
  | none => Except.error "invalid JSON syntax"
  | some d =>
    match d.executors with
    | some (e :: es) =>
      Except.ok { name := d.name, inputs := d.inputs.getD [], outputs := d.outputs.getD [],
                  executors := e :: es }
    | _ => Except.error "the task document must declare at least one executor"

/-- Modelled from the spec: the Debug rendering used by the status branch
when printing the returned state (the derived Debug of the SDK's TesState,
not under src/) — the bare variant name of the State value. -/
def debugTesState : TesState → String
  | TesState.Unknown => "Unknown"
  | TesState.Queued => "Queued"
  | TesState.Initializing => "Initializing"
  | TesState.Running => "Running"
  | TesState.Paused => "Paused"
  | TesState.Complete => "Complete"
  | TesState.ExecutorError => "ExecutorError"
  | TesState.SystemError => "SystemError"
  | TesState.Canceled => "Canceled"
  | TesState.Canceling => "Canceling"
  | TesState.Preempted => "Preempted"

/-- The Debug rendering of a backend Result whose success payload is already
rendered as text. -/
def debugResultStr : Except String String → String
  | Except.ok s => "Ok(" ++ s ++ ")"
  | Except.error e => "Err(" ++ e ++ ")"

/-- The content fallback of the create branch (`cli/src/main.rs` lines
178-184): the file's contents when readable, otherwise the argument string
itself, verbatim. -/
def resolveTaskJson (fsRead : String → Option String) (task_file : String) : String :=
  match fsRead task_file with
  | some contents => contents
  | none => task_file

/-- The observable effectful steps of one invocation: endpoint resolution
(ensure_funnel_running, Url::parse, set_base_path), handle construction
(TES::new, or Transport::new plus Task::new), and the single backend call. -/
inductive Event
  | resolve
  | handleNew
  | backend (op : String)
deriving DecidableEq, Repr

/-- Process exit: Ok of main versus a propagated error or panic. -/
inductive ExitStatus
  | success
  | failure
deriving DecidableEq, Repr

/-- What one run of the process produced: its effect trace, its stdout
lines, its reported errors (log lines, stderr lines, panics and the
propagated error), and its exit status. -/
structure RunResult where
  trace : List Event
  stdout : List String
  errors : List String
  exit : ExitStatus
deriving DecidableEq, Repr

/-- The environment of one invocation: the filesystem, the JSON decoder, and
the outcomes of the external collaborators (endpoint resolution, handle
construction, and the backend call of each operation). -/
structure Env where
  pathExists : String → Bool
  fsRead : String → Option String
  jsonDecode : String → Option TaskDoc
  resolveOk : Bool
  tesNewOk : Bool
  createResult : Except String String
  listResult : Except String TesListTasksResponse
  getResult : Except String String
  statusResult : Except String TesState
  cancelResult : Except String String

/-- The parsed command line: the five tes subcommands (clap guarantees
exactly one is present). -/
inductive Cli
  | create (task_file : String)
  | list (namePrefix state tagKey tagValue pageSize pageToken view : Option String)
  | get (id view : String)
  | status (id : String)
  | cancel (id : String)

/-- The create branch of `cli/src/main.rs` lines 171-201: log (only) a
missing or unreadable file, fall back to the argument as content, parse the
document before any effect, then resolve the endpoint, construct the TES
handle, submit, and print the Debug rendering of the backend result —
whether Ok or Err — with a success exit. Parse and handle failures are
fatal. -/
def run_create (env : Env) (task_file : String) : RunResult :=
  let existErrs := if env.pathExists task_file then [] else ["File does not exist: " ++ task_file]
  let readErrs :=
    match env.fsRead task_file with
    | some _ => []
    | none => ["Failed to read file: " ++ task_file]
  let preErrs := existErrs ++ readErrs
  match parseTesTask (env.jsonDecode (resolveTaskJson env.fsRead task_file)) with
  | Except.error e =>
    { trace := [], stdout := [],
      errors := preErrs ++ ["Failed to parse JSON: " ++ e], exit := ExitStatus.failure }
  | Except.ok _testask =>
    if env.resolveOk then
      if env.tesNewOk then
        { trace := [Event.resolve, Event.handleNew, Event.backend "create"],
          stdout := [debugResultStr env.createResult], errors := preErrs,
          exit := ExitStatus.success }
      else
        { trace := [Event.resolve, Event.handleNew], stdout := [],
          errors := preErrs ++ ["Error creating TES instance"], exit := ExitStatus.failure }
    else
      { trace := [Event.resolve], stdout := [],
        errors := preErrs ++ ["Invalid URL"], exit := ExitStatus.failure }

/-- The list branch of `cli/src/main.rs` lines 203-246: build the query
(panicking locally on an unparsable state or page size), resolve the
endpoint, construct the TES handle, call list_tasks, and print the formatted
table on success; on a backend failure the error goes to stderr only and the
branch falls through, so main still returns Ok. -/
def run_list (env : Env)
    (namePrefix state tagKey tagValue pageSize pageToken view : Option String) : RunResult :=
  match buildListQuery namePrefix state tagKey tagValue pageSize pageToken view with
  | Except.error ListBuildError.InvalidFilter =>
    { trace := [], stdout := [], errors := ["Invalid state"], exit := ExitStatus.failure }
  | Except.error ListBuildError.InvalidPagination =>
    { trace := [], stdout := [], errors := ["Invalid page_size"], exit := ExitStatus.failure }
  | Except.ok _parameters =>
    if env.resolveOk then
      if env.tesNewOk then
        match env.listResult with
        | Except.ok task_response =>
          { trace := [Event.resolve, Event.handleNew, Event.backend "list"],
            stdout := [format_tasks_response task_response], errors := [],
            exit := ExitStatus.success }
        | Except.error e =>
          { trace := [Event.resolve, Event.handleNew, Event.backend "list"],
            stdout := [], errors := ["Error listing tasks: " ++ e],
            exit := ExitStatus.success }
      else
        { trace := [Event.resolve, Event.handleNew], stdout := [],
          errors := ["Error creating TES instance"], exit := ExitStatus.failure }
    else
      { trace := [Event.resolve], stdout := [], errors := ["Invalid URL"],
        exit := ExitStatus.failure }

/-- The get branch of `cli/src/main.rs` lines 247-266: resolve, construct
the TES handle, fetch, and print the Debug rendering of the backend result —
Ok or Err — with a success exit. Only a handle-construction failure is
fatal. -/
def run_get (env : Env) (_id _view : String) : RunResult :=
  if env.resolveOk then
    if env.tesNewOk then
      { trace := [Event.resolve, Event.handleNew, Event.backend "get"],
        stdout := [debugResultStr env.getResult], errors := [],
        exit := ExitStatus.success }
    else
      { trace := [Event.resolve, Event.handleNew], stdout := [],
        errors := ["Error creating TES instance"], exit := ExitStatus.failure }
  else
    { trace := [Event.resolve], stdout := [], errors := ["Invalid URL"],
      exit := ExitStatus.failure }

/-- The status branch of `cli/src/main.rs` lines 267-287: resolve, construct
the transport and task handles (infallible), call status, and on success
print the identifier and the Debug rendering of the state; a backend failure
is logged and propagated as the exit error. -/
def run_status (env : Env) (id : String) : RunResult :=
  if env.resolveOk then
    match env.statusResult with
    | Except.ok status =>
      { trace := [Event.resolve, Event.handleNew, Event.backend "status"],
        stdout := ["TASKID: " ++ id, "STATUS: " ++ debugTesState status],
        errors := [], exit := ExitStatus.success }
    | Except.error e =>
      { trace := [Event.resolve, Event.handleNew, Event.backend "status"],
        stdout := [], errors := ["Error creating Task instance: " ++ e],
        exit := ExitStatus.failure }
  else
    { trace := [Event.resolve], stdout := [], errors := ["Invalid URL"],
      exit := ExitStatus.failure }

/-- The cancel branch of `cli/src/main.rs` lines 288-307: resolve, construct
the transport and task handles (infallible), call cancel, print the
acknowledgment on success; a backend failure is logged and propagated as the
exit error. -/
def run_cancel (env : Env) (_id : String) : RunResult :=
  if env.resolveOk then
    match env.cancelResult with
    | Except.ok output =>
      { trace := [Event.resolve, Event.handleNew, Event.backend "cancel"],
        stdout := ["The new value is: " ++ output], errors := [],
        exit := ExitStatus.success }
    | Except.error e =>
      { trace := [Event.resolve, Event.handleNew, Event.backend "cancel"],
        stdout := [], errors := ["Error creating Task instance: " ++ e],
        exit := ExitStatus.failure }
  else
    { trace := [Event.resolve], stdout := [], errors := ["Invalid URL"],
      exit := ExitStatus.failure }

/-- The dispatcher of main: one subcommand, one branch, one operation. -/
def main_run (env : Env) : Cli → RunResult
  | Cli.create task_file => run_create env task_file
  | Cli.list a s k v p t w => run_list env a s k v p t w
  | Cli.get id view => run_get env id view
  | Cli.status id => run_status env id
  | Cli.cancel id => run_cancel env id

/-- Which branches construct their handle through the fallible TES::new (the
status and cancel branches use the infallible Transport::new and
Task::new instead). -/
def usesTesHandle : Cli → Bool
  | Cli.create _ => true
  | Cli.list _ _ _ _ _ _ _ => true
  | Cli.get _ _ => true
  | Cli.status _ => false
  | Cli.cancel _ => false

/-- A baseline environment for concrete runs: empty filesystem, reachable
backend, all backend calls succeeding. -/
def defaultEnv : Env :=
  { pathExists := fun _ => false
    fsRead := fun _ => none
    jsonDecode := fun _ => none
    resolveOk := true
    tesNewOk := true
    createResult := Except.ok "task"
    listResult := Except.ok { tasks := [] }
    getResult := Except.ok "task"
    statusResult := Except.ok TesState.Running
    cancelResult := Except.ok "CANCELED" }

end GA4GH

/-- C5: for every defined State value, `tes_state_to_str` returns exactly one
of the 11 documented state strings; applied to the absent state it returns the
literal "None"; and "None" is never equal to any real state's label. -/
theorem c5_state_labels_total :
    (∀ st : GA4GH.TesState, GA4GH.tes_state_to_str (some st) ∈ GA4GH.stateLabels) ∧
    GA4GH.tes_state_to_str none = "None" ∧
    (∀ st : GA4GH.TesState, GA4GH.tes_state_to_str (some st) ≠ "None") := by
  refine ⟨?_, rfl, ?_⟩ <;> decide

theorem length_mk_replicate (n : Nat) (c : Char) :
    (String.mk (List.replicate n c)).length = n := by
  simp [String.length]

theorem leftAligned_length (w : Nat) (s : String) :
    (GA4GH.leftAligned w s).length = s.length + (w - s.length) := by
  unfold GA4GH.leftAligned
  rw [String.length_append, length_mk_replicate]

theorem state_label_short (s : Option GA4GH.TesState) :
    (GA4GH.tes_state_to_str s).length ≤ 15 := by
  cases s with
  | none => decide
  | some st => cases st <;> decide

/-- C6: `format_task` renders the identifier (or "None" when absent)
verbatim — hence untruncated for ids of any length — left-justified by
space-padding to the width-25 field, then the separating space, then the
state label of `tes_state_to_str` verbatim, space-padded to the width-15
field, then a newline; the line's total length is max 25 id-length plus 17,
so it is the fixed width 42 for every id of at most 25 characters, and a
longer id (such as a 40-character one) only grows the line, never losing a
character. -/
theorem c6_format_task_shape (t : GA4GH.TesTask) :
    GA4GH.format_task t =
      (t.id.getD "None") ++
        String.mk (List.replicate (25 - (t.id.getD "None").length) ' ') ++ " " ++
        GA4GH.tes_state_to_str t.state ++
        String.mk (List.replicate (15 - (GA4GH.tes_state_to_str t.state).length) ' ') ++ "\n" ∧
    (GA4GH.format_task t).length = max 25 (t.id.getD "None").length + 17 := by
  constructor
  · unfold GA4GH.format_task GA4GH.leftAligned
    simp only [String.append_assoc]
  · have h := state_label_short t.state
    have hsp : (" " : String).length = 1 := rfl
    have hnl : ("\n" : String).length = 1 := rfl
    unfold GA4GH.format_task
    rw [String.length_append, String.length_append, String.length_append,
      leftAligned_length, leftAligned_length, hsp, hnl]
    omega

theorem string_foldl_append (l : List String) (init : String) :
    l.foldl (fun r s => r ++ s) init = init ++ l.foldl (fun r s => r ++ s) "" := by
  induction l generalizing init with
  | nil => simp [List.foldl, String.append_empty]
  | cons a l ih =>
    simp only [List.foldl]
    rw [ih (init ++ a), ih ("" ++ a), String.empty_append, String.append_assoc]

theorem string_join_cons (a : String) (l : List String) :
    String.join (a :: l) = a ++ String.join l := by
  show (a :: l).foldl (fun r s => r ++ s) "" = a ++ l.foldl (fun r s => r ++ s) ""
  simp only [List.foldl]
  rw [string_foldl_append l ("" ++ a), String.empty_append]

theorem format_tasks_foldl (l : List GA4GH.TesTask) (init : String) :
    l.foldl (fun table task => table ++ GA4GH.format_task task) init =
      init ++ String.join (l.map GA4GH.format_task) := by
  induction l generalizing init with
  | nil => simp [List.foldl, String.join, String.append_empty]
  | cons a l ih =>
    simp only [List.foldl, List.map]
    rw [ih (init ++ GA4GH.format_task a), string_join_cons, String.append_assoc]

/-- C7: `format_tasks_response` is exactly the fixed-width header row (which
begins with "TASK ID" and carries "State" in its second field) followed by the
concatenation of one `format_task` line per task in response order; on the
empty task list it is exactly the header row. Being a total function, it never
fails. -/
theorem c7_format_tasks_response_shape :
    (∀ resp : GA4GH.TesListTasksResponse,
      GA4GH.format_tasks_response resp =
        GA4GH.listHeaderRow ++ String.join (resp.tasks.map GA4GH.format_task)) ∧
    GA4GH.format_tasks_response { tasks := [] } = GA4GH.listHeaderRow ∧
    (∃ r, GA4GH.listHeaderRow = "TASK ID" ++ r) ∧
    (∃ u v, GA4GH.listHeaderRow = u ++ "State" ++ v) := by
  refine ⟨fun resp => format_tasks_foldl resp.tasks GA4GH.listHeaderRow, ?_, ?_, ?_⟩
  · rfl
  · exact ⟨"                   State          \n", by decide⟩
  · exact ⟨"TASK ID                   ", "          \n", by decide⟩

/-- C2 counterexample: a successful status invocation for a task in state
ExecutorError prints "STATUS: ExecutorError" — the Debug rendering of the
state — and not the documented label "Executor Error"; the two strings
differ, so the printed output is not the identifier together with the state
label. -/
theorem c2_counterexample :
    (GA4GH.main_run { GA4GH.defaultEnv with statusResult := Except.ok GA4GH.TesState.ExecutorError }
        (GA4GH.Cli.status "task1")).stdout = ["TASKID: task1", "STATUS: ExecutorError"] ∧
    GA4GH.tes_state_to_str (some GA4GH.TesState.ExecutorError) = "Executor Error" ∧
    ("ExecutorError" : String) ≠ "Executor Error" := by
  refine ⟨rfl, rfl, by decide⟩

/-- C2 (amended): on every successful status invocation the output is the
line "TASKID: " followed by the identifier and the line "STATUS: " followed
by the Debug rendering of the returned state (its bare variant name), which
is not the state-label function of section 4.1. -/
theorem c2_status_output (env : GA4GH.Env) (id : String) (st : GA4GH.TesState)
    (h1 : env.resolveOk = true) (h2 : env.statusResult = Except.ok st) :
    (GA4GH.main_run env (GA4GH.Cli.status id)).stdout =
      ["TASKID: " ++ id, "STATUS: " ++ GA4GH.debugTesState st] ∧
    (GA4GH.main_run env (GA4GH.Cli.status id)).exit = GA4GH.ExitStatus.success := by
  constructor <;> simp [GA4GH.main_run, GA4GH.run_status, h1, h2]

/-- Witness for C2: the amended statement evaluated at the baseline
environment and a concrete identifier. -/
theorem c2_status_output_witness :
    (GA4GH.main_run GA4GH.defaultEnv (GA4GH.Cli.status "t1")).stdout =
      ["TASKID: " ++ "t1", "STATUS: " ++ GA4GH.debugTesState GA4GH.TesState.Running] ∧
    (GA4GH.main_run GA4GH.defaultEnv (GA4GH.Cli.status "t1")).exit = GA4GH.ExitStatus.success :=
  c2_status_output GA4GH.defaultEnv "t1" GA4GH.TesState.Running rfl rfl

/-- C3: an unparsable state argument makes the list-query build fail with
InvalidFilter; an unparsable page-size argument (with the state argument
absent or parsable) makes it fail with InvalidPagination; and on any build
failure the list run performs no effectful step at all — in particular no
backend call — and exits as a failure. -/
theorem c3_list_build_errors :
    (∀ a k v p t w : Option String, ∀ s : String, GA4GH.parseStateArg s = none →
      GA4GH.buildListQuery a (some s) k v p t w = Except.error GA4GH.ListBuildError.InvalidFilter) ∧
    (∀ a k v t w : Option String, ∀ ps : String, GA4GH.parsePageSize ps = none →
      GA4GH.buildListQuery a none k v (some ps) t w = Except.error GA4GH.ListBuildError.InvalidPagination) ∧
    (∀ a k v t w : Option String, ∀ s ps : String, ∀ st : GA4GH.TesState,
      GA4GH.parseStateArg s = some st → GA4GH.parsePageSize ps = none →
      GA4GH.buildListQuery a (some s) k v (some ps) t w = Except.error GA4GH.ListBuildError.InvalidPagination) ∧
    (∀ env : GA4GH.Env, ∀ a s k v p t w : Option String, ∀ err : GA4GH.ListBuildError,
      GA4GH.buildListQuery a s k v p t w = Except.error err →
      (GA4GH.main_run env (GA4GH.Cli.list a s k v p t w)).trace = [] ∧
      (GA4GH.main_run env (GA4GH.Cli.list a s k v p t w)).exit = GA4GH.ExitStatus.failure) := by
  refine ⟨?_, ?_, ?_, ?_⟩
  · intro a k v p t w s h
    simp [GA4GH.buildListQuery, h, bind, Except.bind]
  · intro a k v t w ps h
    simp [GA4GH.buildListQuery, h, bind, Except.bind, pure, Except.pure]
  · intro a k v t w s ps st hs hp
    simp [GA4GH.buildListQuery, hs, hp, bind, Except.bind, pure, Except.pure]
  · intro env a s k v p t w err h
    cases err <;> constructor <;> simp [GA4GH.main_run, GA4GH.run_list, h]

/-- Witness for C3: concrete unparsable arguments, and the induced effect-free
failing run. -/
theorem c3_list_build_errors_witness :
    GA4GH.buildListQuery none (some "BOGUS") none none none none none =
      Except.error GA4GH.ListBuildError.InvalidFilter ∧
    GA4GH.buildListQuery none none none none (some "abc") none none =
      Except.error GA4GH.ListBuildError.InvalidPagination ∧
    (GA4GH.main_run GA4GH.defaultEnv
        (GA4GH.Cli.list none none none none (some "abc") none none)).trace = [] ∧
    (GA4GH.main_run GA4GH.defaultEnv
        (GA4GH.Cli.list none none none none (some "abc") none none)).exit =
      GA4GH.ExitStatus.failure := by
  refine ⟨c3_list_build_errors.1 none none none none none none "BOGUS" (by decide),
    c3_list_build_errors.2.1 none none none none none "abc" (by decide),
    c3_list_build_errors.2.2.2 GA4GH.defaultEnv none none none none (some "abc") none none
      GA4GH.ListBuildError.InvalidPagination rfl⟩

/-- C4: a create invocation whose document content is not valid JSON, or
decodes to a document lacking at least one executor (field absent or the
empty array), fails locally with a parse error: no effectful step is taken —
in particular no backend call — the exit is a failure, and a parse-error
report is among the reported errors. -/
theorem c4_create_parse_local (env : GA4GH.Env) (f : String)
    (hbad : env.jsonDecode (GA4GH.resolveTaskJson env.fsRead f) = none ∨
      ∃ d : GA4GH.TaskDoc, env.jsonDecode (GA4GH.resolveTaskJson env.fsRead f) = some d ∧
        (d.executors = none ∨ d.executors = some [])) :
    (GA4GH.main_run env (GA4GH.Cli.create f)).trace = [] ∧
    (GA4GH.main_run env (GA4GH.Cli.create f)).exit = GA4GH.ExitStatus.failure ∧
    ∃ e, ("Failed to parse JSON: " ++ e) ∈ (GA4GH.main_run env (GA4GH.Cli.create f)).errors := by
  have hparse : ∃ e, GA4GH.parseTesTask (env.jsonDecode (GA4GH.resolveTaskJson env.fsRead f)) =
      Except.error e := by
    rcases hbad with h | ⟨d, hd, hex⟩
    · exact ⟨"invalid JSON syntax", by rw [h]; rfl⟩
    · refine ⟨"the task document must declare at least one executor", ?_⟩
      rw [hd]
      rcases hex with h | h <;> simp [GA4GH.parseTesTask, h]
  obtain ⟨e, he⟩ := hparse
  refine ⟨?_, ?_, e, ?_⟩ <;> simp [GA4GH.main_run, GA4GH.run_create, he]

/-- Witness for C4: in the baseline environment no string decodes as JSON, so
a create invocation on an arbitrary argument fails locally with no effects. -/
theorem c4_create_parse_local_witness :
    (GA4GH.main_run GA4GH.defaultEnv (GA4GH.Cli.create "not json")).trace = [] ∧
    (GA4GH.main_run GA4GH.defaultEnv (GA4GH.Cli.create "not json")).exit =
      GA4GH.ExitStatus.failure ∧
    ∃ e, ("Failed to parse JSON: " ++ e) ∈
      (GA4GH.main_run GA4GH.defaultEnv (GA4GH.Cli.create "not json")).errors :=
  c4_create_parse_local GA4GH.defaultEnv "not json" (Or.inl rfl)

/-- C8: whatever tag-key and tag-value arguments the operator supplies, a
successfully built list query always has its tag-key and tag-value fields
unset. -/
theorem c8_tags_always_empty (a s k v p t w : Option String) (q : GA4GH.ListTasksParams)
    (h : GA4GH.buildListQuery a s k v p t w = Except.ok q) :
    q.tag_key = none ∧ q.tag_value = none := by
  unfold GA4GH.buildListQuery at h
  cases s with
  | none =>
    cases p with
    | none =>
      simp only [pure, Except.pure, bind, Except.bind, Except.ok.injEq] at h
      subst h
      exact ⟨rfl, rfl⟩
    | some pv =>
      cases hpv : GA4GH.parsePageSize pv with
      | none =>
        simp only [hpv, pure, Except.pure, bind, Except.bind] at h
        exact Except.noConfusion h
      | some n =>
        simp only [hpv, pure, Except.pure, bind, Except.bind, Except.ok.injEq] at h
        subst h
        exact ⟨rfl, rfl⟩
  | some sv =>
    cases hsv : GA4GH.parseStateArg sv with
    | none =>
      simp only [hsv, pure, Except.pure, bind, Except.bind] at h
      exact Except.noConfusion h
    | some x =>
      cases p with
      | none =>
        simp only [hsv, pure, Except.pure, bind, Except.bind, Except.ok.injEq] at h
        subst h
        exact ⟨rfl, rfl⟩
      | some pv =>
        cases hpv : GA4GH.parsePageSize pv with
        | none =>
          simp only [hsv, hpv, pure, Except.pure, bind, Except.bind] at h
          exact Except.noConfusion h
        | some n =>
          simp only [hsv, hpv, pure, Except.pure, bind, Except.bind, Except.ok.injEq] at h
          subst h
          exact ⟨rfl, rfl⟩

/-- Witness for C8: supplied tag arguments are dropped from the built
query. -/
theorem c8_tags_always_empty_witness :
    ({ namePrefix := none, state := none, tag_key := none, tag_value := none,
       page_size := none, page_token := none, view := none } : GA4GH.ListTasksParams).tag_key =
      none ∧
    ({ namePrefix := none, state := none, tag_key := none, tag_value := none,
       page_size := none, page_token := none, view := none } : GA4GH.ListTasksParams).tag_value =
      none :=
  c8_tags_always_empty none none (some "k1") (some "v1") none none none _ rfl

/-- C10: when the task file cannot be read, the create branch logs the read
failure but proceeds: the argument string itself is the document content,
verbatim; and if that content decodes to a schema-valid document (with a
reachable endpoint and a constructible handle) the invocation still reaches
the backend call and exits successfully — the read failure alone is never
fatal. -/
theorem c10_read_failure_nonfatal (env : GA4GH.Env) (f : String)
    (hread : env.fsRead f = none)
    (d : GA4GH.TaskDoc) (e : GA4GH.TesExecutor) (es : List GA4GH.TesExecutor)
    (hdec : env.jsonDecode f = some d) (hex : d.executors = some (e :: es))
    (hr : env.resolveOk = true) (ht : env.tesNewOk = true) :
    GA4GH.resolveTaskJson env.fsRead f = f ∧
    ("Failed to read file: " ++ f) ∈ (GA4GH.main_run env (GA4GH.Cli.create f)).errors ∧
    (GA4GH.main_run env (GA4GH.Cli.create f)).trace =
      [GA4GH.Event.resolve, GA4GH.Event.handleNew, GA4GH.Event.backend "create"] ∧
    (GA4GH.main_run env (GA4GH.Cli.create f)).exit = GA4GH.ExitStatus.success := by
  have hjson : GA4GH.resolveTaskJson env.fsRead f = f := by
    simp [GA4GH.resolveTaskJson, hread]
  have hparse : GA4GH.parseTesTask (env.jsonDecode (GA4GH.resolveTaskJson env.fsRead f)) =
      Except.ok { name := d.name, inputs := d.inputs.getD [], outputs := d.outputs.getD [],
                  executors := e :: es } := by
    rw [hjson, hdec]
    simp [GA4GH.parseTesTask, hex]
  refine ⟨hjson, ?_, ?_, ?_⟩ <;>
    cases hp : env.pathExists f <;>
      simp [GA4GH.main_run, GA4GH.run_create, hread, hparse, hr, ht, hp]

/-- Witness for C10: a concrete environment whose filesystem has no files but
whose decoder accepts the literal argument as a one-executor document: the
create invocation logs the read failure, then reaches the backend and
succeeds. -/
theorem c10_read_failure_nonfatal_witness :
    GA4GH.resolveTaskJson
      ({ GA4GH.defaultEnv with
          jsonDecode := fun s =>
            if s = "doc" then
              some { executors := some [{ image := "alpine", command := ["echo"] }] }
            else none } : GA4GH.Env).fsRead "doc" = "doc" ∧
    ("Failed to read file: " ++ "doc") ∈
      (GA4GH.main_run
        { GA4GH.defaultEnv with
          jsonDecode := fun s =>
            if s = "doc" then
              some { executors := some [{ image := "alpine", command := ["echo"] }] }
            else none } (GA4GH.Cli.create "doc")).errors ∧
    (GA4GH.main_run
        { GA4GH.defaultEnv with
          jsonDecode := fun s =>
            if s = "doc" then
              some { executors := some [{ image := "alpine", command := ["echo"] }] }
            else none } (GA4GH.Cli.create "doc")).trace =
      [GA4GH.Event.resolve, GA4GH.Event.handleNew, GA4GH.Event.backend "create"] ∧
    (GA4GH.main_run
        { GA4GH.defaultEnv with
          jsonDecode := fun s =>
            if s = "doc" then
              some { executors := some [{ image := "alpine", command := ["echo"] }] }
            else none } (GA4GH.Cli.create "doc")).exit = GA4GH.ExitStatus.success :=
  c10_read_failure_nonfatal
    { GA4GH.defaultEnv with
      jsonDecode := fun s =>
        if s = "doc" then
          some { executors := some [{ image := "alpine", command := ["echo"] }] }
        else none }
    "doc" rfl { executors := some [{ image := "alpine", command := ["echo"] }] }
    { image := "alpine", command := ["echo"] } [] (by decide) rfl rfl rfl

/-- C1 counterexample: with a reachable endpoint and a failing list backend
call, the list invocation reports an error and yet the process completes
with a success exit code — so the fatal policy is not the same for list as
for the other operations. -/
theorem c1_counterexample :
    (GA4GH.main_run { GA4GH.defaultEnv with listResult := Except.error "connection refused" }
        (GA4GH.Cli.list none none none none none none none)).errors =
      ["Error listing tasks: connection refused"] ∧
    (GA4GH.main_run { GA4GH.defaultEnv with listResult := Except.error "connection refused" }
        (GA4GH.Cli.list none none none none none none none)).exit = GA4GH.ExitStatus.success := by
  exact ⟨rfl, rfl⟩

/-- C1 (amended): the fatal policy differs by operation. A failed list
backend call is reported (to stderr) but the invocation still completes with
a success exit; a failed get backend call is merely Debug-printed with a
success exit; whereas a create-parse failure, a list-query build failure, an
endpoint-resolution failure in any branch, a handle-construction (TES::new)
failure in any branch that uses that handle, and status and cancel backend
failures all terminate the invocation as a failure. -/
theorem c1_error_fatality :
    (∀ env : GA4GH.Env, ∀ e : String, ∀ a s k v p t w : Option String,
      ∀ q : GA4GH.ListTasksParams,
      env.resolveOk = true → env.tesNewOk = true → env.listResult = Except.error e →
      GA4GH.buildListQuery a s k v p t w = Except.ok q →
      (GA4GH.main_run env (GA4GH.Cli.list a s k v p t w)).errors =
        ["Error listing tasks: " ++ e] ∧
      (GA4GH.main_run env (GA4GH.Cli.list a s k v p t w)).exit = GA4GH.ExitStatus.success) ∧
    (∀ env : GA4GH.Env, ∀ e id, env.resolveOk = true → env.statusResult = Except.error e →
      (GA4GH.main_run env (GA4GH.Cli.status id)).exit = GA4GH.ExitStatus.failure ∧
      (GA4GH.main_run env (GA4GH.Cli.status id)).errors ≠ []) ∧
    (∀ env : GA4GH.Env, ∀ e id, env.resolveOk = true → env.cancelResult = Except.error e →
      (GA4GH.main_run env (GA4GH.Cli.cancel id)).exit = GA4GH.ExitStatus.failure) ∧
    (∀ env : GA4GH.Env, ∀ e i vw, env.resolveOk = true → env.tesNewOk = true →
      env.getResult = Except.error e →
      (GA4GH.main_run env (GA4GH.Cli.get i vw)).stdout = ["Err(" ++ e ++ ")"] ∧
      (GA4GH.main_run env (GA4GH.Cli.get i vw)).exit = GA4GH.ExitStatus.success) ∧
    (∀ env : GA4GH.Env, ∀ cmd : GA4GH.Cli, env.resolveOk = true → env.tesNewOk = false →
      GA4GH.usesTesHandle cmd = true →
      (GA4GH.main_run env cmd).exit = GA4GH.ExitStatus.failure) ∧
    (∀ env : GA4GH.Env, ∀ cmd : GA4GH.Cli, env.resolveOk = false →
      (GA4GH.main_run env cmd).exit = GA4GH.ExitStatus.failure) ∧
    (∀ env : GA4GH.Env, ∀ f e,
      GA4GH.parseTesTask (env.jsonDecode (GA4GH.resolveTaskJson env.fsRead f)) =
        Except.error e →
      (GA4GH.main_run env (GA4GH.Cli.create f)).exit = GA4GH.ExitStatus.failure) ∧
    (∀ env : GA4GH.Env, ∀ a s k v p t w : Option String, ∀ err : GA4GH.ListBuildError,
      GA4GH.buildListQuery a s k v p t w = Except.error err →
      (GA4GH.main_run env (GA4GH.Cli.list a s k v p t w)).exit =
        GA4GH.ExitStatus.failure) := by
  refine ⟨?_, ?_, ?_, ?_, ?_, ?_, ?_, ?_⟩
  · intro env e a s k v p t w q h1 h2 h3 hq
    constructor <;> simp [GA4GH.main_run, GA4GH.run_list, hq, h1, h2, h3]
  · intro env e id h1 h2
    constructor <;> simp [GA4GH.main_run, GA4GH.run_status, h1, h2]
  · intro env e id h1 h2
    simp [GA4GH.main_run, GA4GH.run_cancel, h1, h2]
  · intro env e i vw h1 h2 h3
    constructor <;> simp [GA4GH.main_run, GA4GH.run_get, h1, h2, h3, GA4GH.debugResultStr]
  · intro env cmd h1 h2 hu
    cases cmd with
    | create f =>
      cases hp : GA4GH.parseTesTask (env.jsonDecode (GA4GH.resolveTaskJson env.fsRead f)) with
      | error e => simp [GA4GH.main_run, GA4GH.run_create, hp]
      | ok tk => simp [GA4GH.main_run, GA4GH.run_create, hp, h1, h2]
    | list a s k v p t w =>
      cases hb : GA4GH.buildListQuery a s k v p t w with
      | error err => cases err <;> simp [GA4GH.main_run, GA4GH.run_list, hb]
      | ok q => simp [GA4GH.main_run, GA4GH.run_list, hb, h1, h2]
    | get i vw => simp [GA4GH.main_run, GA4GH.run_get, h1, h2]
    | status id => simp [GA4GH.usesTesHandle] at hu
    | cancel id => simp [GA4GH.usesTesHandle] at hu
  · intro env cmd hr
    cases cmd with
    | create f =>
      cases hp : GA4GH.parseTesTask (env.jsonDecode (GA4GH.resolveTaskJson env.fsRead f)) <;>
        simp [GA4GH.main_run, GA4GH.run_create, hp, hr]
    | list a s k v p t w =>
      cases hb : GA4GH.buildListQuery a s k v p t w with
      | error err => cases err <;> simp [GA4GH.main_run, GA4GH.run_list, hb]
      | ok q => simp [GA4GH.main_run, GA4GH.run_list, hb, hr]
    | get i vw => simp [GA4GH.main_run, GA4GH.run_get, hr]
    | status id => simp [GA4GH.main_run, GA4GH.run_status, hr]
    | cancel id => simp [GA4GH.main_run, GA4GH.run_cancel, hr]
  · intro env f e hp
    simp [GA4GH.main_run, GA4GH.run_create, hp]
  · intro env a s k v p t w err hb
    cases err <;> simp [GA4GH.main_run, GA4GH.run_list, hb]

/-- Witness for C1: the amended statement at concrete environments — the
failing-list run reports and still exits successfully; the failing-status
run, a handle-construction failure under get, an endpoint-resolution
failure under cancel, an unparsable create document, and an unparsable
list page size all exit as failures. -/
theorem c1_error_fatality_witness :
    ((GA4GH.main_run { GA4GH.defaultEnv with listResult := Except.error "boom" }
        (GA4GH.Cli.list none none none none none none none)).errors =
      ["Error listing tasks: " ++ "boom"] ∧
     (GA4GH.main_run { GA4GH.defaultEnv with listResult := Except.error "boom" }
        (GA4GH.Cli.list none none none none none none none)).exit =
      GA4GH.ExitStatus.success) ∧
    ((GA4GH.main_run { GA4GH.defaultEnv with statusResult := Except.error "boom" }
        (GA4GH.Cli.status "t1")).exit = GA4GH.ExitStatus.failure ∧
     (GA4GH.main_run { GA4GH.defaultEnv with statusResult := Except.error "boom" }
        (GA4GH.Cli.status "t1")).errors ≠ []) ∧
    (GA4GH.main_run { GA4GH.defaultEnv with tesNewOk := false }
        (GA4GH.Cli.get "t1" "FULL")).exit = GA4GH.ExitStatus.failure ∧
    (GA4GH.main_run { GA4GH.defaultEnv with resolveOk := false }
        (GA4GH.Cli.cancel "t1")).exit = GA4GH.ExitStatus.failure ∧
    (GA4GH.main_run GA4GH.defaultEnv (GA4GH.Cli.create "not json")).exit =
      GA4GH.ExitStatus.failure ∧
    (GA4GH.main_run GA4GH.defaultEnv
        (GA4GH.Cli.list none none none none (some "twelve") none none)).exit =
      GA4GH.ExitStatus.failure :=
  ⟨c1_error_fatality.1 { GA4GH.defaultEnv with listResult := Except.error "boom" } "boom"
      none none none none none none none
      { namePrefix := none, state := none, tag_key := none, tag_value := none,
        page_size := none, page_token := none, view := none } rfl rfl rfl rfl,
   c1_error_fatality.2.1 { GA4GH.defaultEnv with statusResult := Except.error "boom" }
      "boom" "t1" rfl rfl,
   c1_error_fatality.2.2.2.2.1 { GA4GH.defaultEnv with tesNewOk := false }
      (GA4GH.Cli.get "t1" "FULL") rfl rfl rfl,
   c1_error_fatality.2.2.2.2.2.1 { GA4GH.defaultEnv with resolveOk := false }
      (GA4GH.Cli.cancel "t1") rfl,
   c1_error_fatality.2.2.2.2.2.2.1 GA4GH.defaultEnv "not json" "invalid JSON syntax" rfl,
   c1_error_fatality.2.2.2.2.2.2.2 GA4GH.defaultEnv none none none none (some "twelve")
      none none GA4GH.ListBuildError.InvalidPagination rfl⟩

/-- C9: every invocation's effect trace is a prefix of resolve, handle
construction, backend call, in that order, each step at most once — a backend
call happens only after exactly one resolution and one handle construction;
if endpoint resolution fails the run fails with no backend call ever
attempted; and if handle construction (TES::new) fails, in every branch that
uses that handle, the run fails with no backend call attempted. -/
theorem c9_effect_order (env : GA4GH.Env) (cmd : GA4GH.Cli) :
    ((GA4GH.main_run env cmd).trace = [] ∨
     (GA4GH.main_run env cmd).trace = [GA4GH.Event.resolve] ∨
     (GA4GH.main_run env cmd).trace = [GA4GH.Event.resolve, GA4GH.Event.handleNew] ∨
     ∃ op, (GA4GH.main_run env cmd).trace =
       [GA4GH.Event.resolve, GA4GH.Event.handleNew, GA4GH.Event.backend op]) ∧
    (env.resolveOk = false →
      (GA4GH.main_run env cmd).exit = GA4GH.ExitStatus.failure ∧
      ∀ op, GA4GH.Event.backend op ∉ (GA4GH.main_run env cmd).trace) ∧
    (env.tesNewOk = false → GA4GH.usesTesHandle cmd = true →
      (GA4GH.main_run env cmd).exit = GA4GH.ExitStatus.failure ∧
      ∀ op, GA4GH.Event.backend op ∉ (GA4GH.main_run env cmd).trace) := by
  cases cmd with
  | create f =>
    cases hp : GA4GH.parseTesTask (env.jsonDecode (GA4GH.resolveTaskJson env.fsRead f)) <;>
      cases hr : env.resolveOk <;> cases ht : env.tesNewOk <;>
        simp_all [GA4GH.main_run, GA4GH.run_create, GA4GH.usesTesHandle]
  | list a s k v p t w =>
    cases hb : GA4GH.buildListQuery a s k v p t w with
    | error err =>
      cases err <;> cases hr : env.resolveOk <;> cases ht : env.tesNewOk <;>
        simp_all [GA4GH.main_run, GA4GH.run_list, GA4GH.usesTesHandle]
    | ok q =>
      cases hl : env.listResult <;> cases hr : env.resolveOk <;> cases ht : env.tesNewOk <;>
        simp_all [GA4GH.main_run, GA4GH.run_list, GA4GH.usesTesHandle]
  | get i vw =>
    cases hr : env.resolveOk <;> cases ht : env.tesNewOk <;>
      simp_all [GA4GH.main_run, GA4GH.run_get, GA4GH.usesTesHandle]
  | status id =>
    cases hr : env.resolveOk <;> cases hs : env.statusResult <;>
      simp_all [GA4GH.main_run, GA4GH.run_status, GA4GH.usesTesHandle]
  | cancel id =>
    cases hr : env.resolveOk <;> cases hc : env.cancelResult <;>
      simp_all [GA4GH.main_run, GA4GH.run_cancel, GA4GH.usesTesHandle]

/-- Witness for C9: with endpoint resolution failing, a status invocation
fails and its trace holds no backend call. -/
theorem c9_effect_order_witness :
    (GA4GH.main_run { GA4GH.defaultEnv with resolveOk := false }
        (GA4GH.Cli.status "t9")).exit = GA4GH.ExitStatus.failure ∧
    GA4GH.Event.backend "status" ∉
      (GA4GH.main_run { GA4GH.defaultEnv with resolveOk := false }
        (GA4GH.Cli.status "t9")).trace :=
  ⟨((c9_effect_order { GA4GH.defaultEnv with resolveOk := false }
      (GA4GH.Cli.status "t9")).2.1 rfl).1,
   ((c9_effect_order { GA4GH.defaultEnv with resolveOk := false }
      (GA4GH.Cli.status "t9")).2.1 rfl).2 "status"⟩
